import Mathlib

/-!
Verification of the `donotation` repository example
(`src/examples/raiseexceptionexample.py`) against its specification.

The file embeds the Python example shallowly:

* Python dynamic values relevant to the example are `PyVal`
  (integers and `StateMonad` objects; a `StateMonad` is identified with
  its `func` attribute, the only attribute the example reads).
* Executing a `StateMonad`'s `func` on a state either returns a
  `(state, value)` pair or raises an exception; this is `RunResult`.
* Raised Python exceptions are `PyErr` (`AttributeError` carries the
  offending type and attribute name, mirroring the message
  `'int' object has no attribute 'flat_map'` documented in the source).
* `StateMonad.flat_map` becomes `flatMapAttr` (the duck-typed attribute
  access plus call: it fails with an `AttributeError` on a plain int) with
  its wrapped closure `flatMapFunc`, translated line by line from

  ```python
  def flat_map(self, func):
      def next(state):
          n_state, value = self.func(state)
          return func(value).func(n_state)
      return StateMonad(func=next)
  ```

* The `@do()` decorator's bind-chaining interpreter is not part of the
  repository's `src/` tree, so it is modelled from the spec as `DoComp`
  (a suspendable computation description) and `runDo` (the do-runner).
-/

/-- Python `set[int]`, the state threaded by the example's monad. -/
abbrev PySet := Finset Int

/-- Exceptions that the embedded fragment can raise.  `attributeError ty at`
models Python's `AttributeError: '<ty>' object has no attribute '<at>'`;
`typeError` models a `TypeError` from an unsupported arithmetic operand;
`userError` stands for any exception raised inside user code. -/
inductive PyErr : Type where
  | attributeError (ty at_ : String) : PyErr
  | typeError (msg : String) : PyErr
  | userError (msg : String) : PyErr
deriving DecidableEq, Repr

mutual
/-- A dynamic Python value of the example: a plain `int` or a `StateMonad`
object, the latter identified with its `func` attribute (a function from a
state to a raised exception or a `(state, value)` pair). -/
inductive PyVal : Type where
  | int : Int → PyVal
  | monadV : (PySet → RunResult) → PyVal

/-- Outcome of executing a `StateMonad`'s `func` on a state: a normal
`(state, value)` return or a raised exception. -/
inductive RunResult : Type where
  | ok : PySet → PyVal → RunResult
  | raise : PyErr → RunResult
end

/-- The attribute access plus call `v.func(state)`: a `StateMonad` runs its
stored function; a plain `int` has no `func` attribute, so Python raises an
`AttributeError`. -/
def callFunc : PyVal → PySet → RunResult
  | .monadV f, s => f s
  | .int _, _ => .raise (.attributeError "int" "func")

/-- The closure `next` built inside `StateMonad.flat_map`:
`n_state, value = self.func(state); return func(value).func(n_state)`.
Exceptions raised by `self.func`, by the continuation call `func(value)`,
or by `.func(n_state)` on its result all propagate. -/
def flatMapFunc (f : PySet → RunResult) (cont : PyVal → Except PyErr PyVal) :
    PySet → RunResult :=
  fun state =>
    match f state with
    | .raise e => .raise e
    | .ok n_state value =>
      match cont value with
      | .error e => .raise e
      | .ok next => callFunc next n_state

/-- The attribute access plus call `v.flat_map(cont)`: on a `StateMonad` it
returns the new `StateMonad(func=next)` built by `flat_map`; on a plain
`int` Python raises `AttributeError: 'int' object has no attribute
'flat_map'` (the failure mode documented in the source file). -/
def flatMapAttr (v : PyVal) (cont : PyVal → Except PyErr PyVal) :
    Except PyErr PyVal :=
  match v with
  | .monadV f => .ok (.monadV (flatMapFunc f cont))
  | .int _ => .error (.attributeError "int" "flat_map")

/-- Modelled from the spec: the suspendable-computation description that the
`@do()` decorator (the `donotation` package, absent from `src/`) collects
from a decorated generator body — a sequence of suspension points
(`bindS operand rest`, one per `x = yield operand` statement), a final
`return`ed value (`ret`), or an exception raised while the body computes an
operand (`raiseC`). -/
inductive DoComp : Type where
  | ret : PyVal → DoComp
  | raiseC : PyErr → DoComp
  | bindS : PyVal → (PyVal → DoComp) → DoComp

/-- Modelled from the spec: the do-runner (bind-chaining interpreter) of the
`donotation` package, absent from `src/`.  Each suspension point's operand
is consumed by calling its `flat_map` with a continuation that re-enters the
remainder of the computation; the final returned value is the base case and
is propagated as-is (no auto-lifting). -/
def runDo : DoComp → Except PyErr PyVal
  | .ret v => .ok v
  | .raiseC e => .error e
  | .bindS op rest => flatMapAttr op (fun x => runDo (rest x))

/-- `collect_even_numbers` from the source: a `StateMonad` whose `func` adds
`num` to the state set when `num` is even (building a new set with the union
operator) and always returns `num` as the value. -/
def collect_even_numbers (num : Int) : PyVal :=
  .monadV (fun state =>
    .ok (if num % 2 = 0 then state ∪ {num} else state) (.int num))

/-- Python integer arithmetic `v + k` inside a computation body: defined on
ints; on any other operand the body raises a `TypeError` while computing
(never reached in the example's executions). -/
def asIntThen : PyVal → (Int → DoComp) → DoComp
  | .int n, k => k n
  | .monadV _, _ => .raiseC (.typeError "unsupported operand type for +")

/-- The body of the decorated function `example` from the source, as the
suspendable-computation description the do-runner consumes (modelled from
the spec's rewriting of `x = yield op; rest` into a suspension point):

```python
x = yield collect_even_numbers(init+1)
y = yield x+1
z = yield collect_even_numbers(y+1)
return collect_even_numbers(z+1)
``` -/
def exampleBody (init : Int) : DoComp :=
  .bindS (collect_even_numbers (init + 1)) (fun x =>
    asIntThen x (fun xv =>
      .bindS (.int (xv + 1)) (fun y =>
        asIntThen y (fun yv =>
          .bindS (collect_even_numbers (yv + 1)) (fun z =>
            asIntThen z (fun zv =>
              .ret (collect_even_numbers (zv + 1))))))))

/-- The call `example(init)` of the decorated function: hand the collected
computation description to the do-runner, yielding the composed value (or a
construction-time exception). -/
def examplePy (init : Int) : Except PyErr PyVal :=
  runDo (exampleBody init)

/-- The two-phase use `example(init).func(state)`: a construction-time
exception propagates; otherwise the composed value is executed on `state`. -/
def execComposed (c : Except PyErr PyVal) (s : PySet) : RunResult :=
  match c with
  | .error e => .raise e
  | .ok v => callFunc v s

/-- Modelled from the spec: the documented non-error variant of the example
(the happy-path scenario of §8) — it suspends on
`collect_even_numbers(init+1)`, binds the result `+1` as a plain assignment
`y = x+1` (no suspension on the plain integer), suspends on
`collect_even_numbers(y+1)`, and returns `collect_even_numbers(z+1)`. -/
def exampleFixedBody (init : Int) : DoComp :=
  .bindS (collect_even_numbers (init + 1)) (fun x =>
    asIntThen x (fun xv =>
      .bindS (collect_even_numbers ((xv + 1) + 1)) (fun z =>
        asIntThen z (fun zv =>
          .ret (collect_even_numbers (zv + 1))))))

/-- The non-error variant handed to the do-runner. -/
def examplePyFixed (init : Int) : Except PyErr PyVal :=
  runDo (exampleFixedBody init)

/-- The final integer value of an execution outcome, when it returned one. -/
def finalIntOf : RunResult → Option Int
  | .ok _ (.int n) => some n
  | _ => none

/-- The final state of an execution outcome, when it returned normally. -/
def finalStateOf : RunResult → Option PySet
  | .ok s _ => some s
  | _ => none

/-- Two executions of the same `StateMonad` value from the same initial
context, each computed from the supplied context. -/
def runTwice (v : PyVal) (s : PySet) : RunResult × RunResult :=
  (callFunc v s, callFunc v s)

/-- Constant `StateMonad` func used as a concrete witness input: leaves the
state unchanged and returns `v`. -/
def constFunc (v : PyVal) : PySet → RunResult :=
  fun s => .ok s v

/-- Constant continuation used as a concrete witness input: returns `w`. -/
def contTo (w : PyVal) : PyVal → Except PyErr PyVal :=
  fun _ => .ok w

/-- C1: for every `StateMonad` func `f`, continuation `cont` and state `s`,
the composed value `m.flat_map(cont)` is the `StateMonad` wrapping
`flatMapFunc f cont`, and executing it on `s` first runs `f` on `s` to get
`(n_state, value)`, then applies `cont` to `value` to get the next
`StateMonad`, then executes that next value's `func` on `n_state` and
returns that call's result as its own. -/
theorem flat_map_step_semantics
    (f : PySet → RunResult) (cont : PyVal → Except PyErr PyVal)
    (s n_state : PySet) (value next : PyVal)
    (hf : f s = .ok n_state value) (hc : cont value = .ok next) :
    flatMapAttr (.monadV f) cont = .ok (.monadV (flatMapFunc f cont)) ∧
    flatMapFunc f cont s = callFunc next n_state := by
  refine ⟨rfl, ?_⟩
  simp only [flatMapFunc, hf, hc]

/-- Witness for C1 at the concrete func `constFunc (.int 1)`, continuation
`contTo (collect_even_numbers 2)` and state `∅`. -/
theorem flat_map_step_semantics_witness :
    constFunc (.int 1) ∅ = .ok ∅ (.int 1) ∧
    contTo (collect_even_numbers 2) (.int 1) = .ok (collect_even_numbers 2) ∧
    (flatMapAttr (.monadV (constFunc (.int 1))) (contTo (collect_even_numbers 2)) =
        .ok (.monadV (flatMapFunc (constFunc (.int 1)) (contTo (collect_even_numbers 2)))) ∧
      flatMapFunc (constFunc (.int 1)) (contTo (collect_even_numbers 2)) ∅ =
        callFunc (collect_even_numbers 2) ∅) :=
  ⟨rfl, rfl,
    flat_map_step_semantics (constFunc (.int 1)) (contTo (collect_even_numbers 2))
      ∅ ∅ (.int 1) (collect_even_numbers 2) rfl rfl⟩

/-- C2: `example(3)` constructs a composed `StateMonad` without error, and
executing it via `.func(∅)` raises `AttributeError: 'int' object has no
attribute 'flat_map'` before producing any final `(state, value)` pair; the
error surfaces uncaught and untranslated. -/
theorem example_three_raises_attribute_error :
    (∃ g, examplePy 3 = .ok (.monadV g)) ∧
    execComposed (examplePy 3) ∅ = .raise (.attributeError "int" "flat_map") ∧
    finalIntOf (execComposed (examplePy 3) ∅) = none :=
  ⟨⟨_, rfl⟩, rfl, rfl⟩

/-- Counterexample to C3 as stated: the call `example(3).func(∅)` on the
source's `example` (which suspends on the plain integer `x+1`) produces no
final value and no final state at all — it raises an `AttributeError`
instead of yielding `(({4, 6}), 7)`. -/
theorem example_three_yields_no_pair :
    finalIntOf (execComposed (examplePy 3) ∅) = none ∧
    finalStateOf (execComposed (examplePy 3) ∅) = none ∧
    execComposed (examplePy 3) ∅ ≠ .ok {4, 6} (.int 7) := by
  refine ⟨rfl, rfl, ?_⟩
  intro h
  exact absurd (congrArg finalIntOf h) (by decide)

/-- C3 (amended): the documented non-error variant of the example — which
binds `y = x+1` as a plain assignment instead of suspending on it — when
called with initial input `3` and executed from the empty set, yields final
value `7` and final context `{4, 6}`. -/
theorem example_three_fixed_yields_7_and_4_6 :
    finalIntOf (execComposed (examplePyFixed 3) ∅) = some 7 ∧
    finalStateOf (execComposed (examplePyFixed 3) ∅) = some {4, 6} :=
  ⟨by decide, by decide⟩

/-- C4: `flat_map` is associative — for every `StateMonad` func `mf`,
continuations `f` and `g` (where `f`, as a continuation in the spec's sense,
returns capability-conforming values whenever it returns at all), and every
state `s`, executing `m.flat_map(f).flat_map(g)` on `s` yields the same
outcome as executing `m.flat_map(lambda x: f(x).flat_map(g))` on `s`. -/
theorem flat_map_assoc
    (mf : PySet → RunResult) (f g : PyVal → Except PyErr PyVal)
    (hf : ∀ x v, f x = .ok v → ∃ h, v = .monadV h) (s : PySet) :
    execComposed (flatMapAttr (.monadV mf) f >>= fun m1 => flatMapAttr m1 g) s =
      execComposed (flatMapAttr (.monadV mf) (fun x => f x >>= fun fx => flatMapAttr fx g)) s := by
  show flatMapFunc (flatMapFunc mf f) g s =
    flatMapFunc mf (fun x => f x >>= fun fx => flatMapAttr fx g) s
  cases hms : mf s with
  | raise e => simp [flatMapFunc, hms]
  | ok n v =>
    cases hfv : f v with
    | error e =>
      simp [flatMapFunc, hms, hfv, Bind.bind, Except.bind]
    | ok next =>
      obtain ⟨nf, rfl⟩ := hf v next hfv
      simp [flatMapFunc, hms, hfv, Bind.bind, Except.bind, callFunc, flatMapAttr]

/-- Witness for C4 at the concrete func `constFunc (.int 0)` and the
continuations constantly returning `collect_even_numbers 2` and
`collect_even_numbers 4`, executed on the empty state. -/
theorem flat_map_assoc_witness :
    execComposed (flatMapAttr (.monadV (constFunc (.int 0))) (contTo (collect_even_numbers 2)) >>=
        fun m1 => flatMapAttr m1 (contTo (collect_even_numbers 4))) ∅ =
      execComposed (flatMapAttr (.monadV (constFunc (.int 0)))
        (fun x => contTo (collect_even_numbers 2) x >>=
          fun fx => flatMapAttr fx (contTo (collect_even_numbers 4)))) ∅ :=
  flat_map_assoc (constFunc (.int 0)) (contTo (collect_even_numbers 2))
    (contTo (collect_even_numbers 4)) (fun x v hv => by cases hv; exact ⟨_, rfl⟩) ∅

/-- C5: consuming a suspension point's operand never raises a
capability-violation error when the operand is a `StateMonad` (the bind
chain is constructed successfully), and always raises
`AttributeError: 'int' object has no attribute 'flat_map'` when the operand
is a plain integer — for every remainder of the computation, i.e. at
whatever position in the chain the suspension point sits. -/
theorem suspension_capability_check
    (f : PySet → RunResult) (rest : PyVal → DoComp) (n : Int) :
    (∃ g, runDo (.bindS (.monadV f) rest) = .ok (.monadV g)) ∧
    runDo (.bindS (.int n) rest) = .error (.attributeError "int" "flat_map") ∧
    (∀ cont, ∃ g, flatMapAttr (.monadV f) cont = .ok (.monadV g)) ∧
    (∀ cont, flatMapAttr (.int n) cont = .error (.attributeError "int" "flat_map")) :=
  ⟨⟨_, rfl⟩, rfl, fun _ => ⟨_, rfl⟩, fun _ => rfl⟩

/-- C6: calling `flat_map` executes nothing immediately — for every receiver
func and continuation it returns a new inert `StateMonad` (first conjunct);
it does so even when the receiver's func and the continuation raise on every
invocation, so neither can have been invoked and no state was touched
(second conjunct); the wrapped computation runs only through the separate
`.func(state)` execution step (third conjunct). -/
theorem flat_map_is_inert
    (f : PySet → RunResult) (cont : PyVal → Except PyErr PyVal) (e e' : PyErr) :
    flatMapAttr (.monadV f) cont = .ok (.monadV (flatMapFunc f cont)) ∧
    flatMapAttr (.monadV (fun _ => .raise e)) (fun _ => .error e') =
      .ok (.monadV (flatMapFunc (fun _ => .raise e) (fun _ => .error e'))) ∧
    (∀ s, callFunc (.monadV (flatMapFunc f cont)) s = flatMapFunc f cont s) :=
  ⟨rfl, rfl, fun _ => rfl⟩

/-- C7: the two composed values `m.flat_map(fc)` and `m.flat_map(gc)` are
independent: each is the closed value `flatMapFunc f c` determined solely by
`m`'s func and its own continuation, so constructing the second leaves the
first as it was, and executing either on any state gives the result
determined by its own continuation alone, while `m` itself still executes
unchanged. -/
theorem flat_map_results_independent
    (f : PySet → RunResult) (fc gc : PyVal → Except PyErr PyVal) (s t u : PySet) :
    flatMapAttr (.monadV f) fc = .ok (.monadV (flatMapFunc f fc)) ∧
    flatMapAttr (.monadV f) gc = .ok (.monadV (flatMapFunc f gc)) ∧
    execComposed (flatMapAttr (.monadV f) fc) s = flatMapFunc f fc s ∧
    execComposed (flatMapAttr (.monadV f) gc) t = flatMapFunc f gc t ∧
    callFunc (.monadV f) u = f u :=
  ⟨rfl, rfl, rfl, rfl, rfl⟩

/-- C8: an error raised by the continuation — either by the call
`func(value)` itself or by executing the `StateMonad` it returns — during
execution of `m.flat_map(func).func(s)` propagates unchanged to the caller:
the chain performs no catching, translation or suppression. -/
theorem continuation_error_propagates
    (f : PySet → RunResult) (cont : PyVal → Except PyErr PyVal)
    (s n_state : PySet) (value : PyVal) (e : PyErr)
    (hf : f s = .ok n_state value)
    (he : cont value = .error e ∨
      ∃ g, cont value = .ok (.monadV g) ∧ g n_state = .raise e) :
    flatMapAttr (.monadV f) cont = .ok (.monadV (flatMapFunc f cont)) ∧
    flatMapFunc f cont s = .raise e := by
  refine ⟨rfl, ?_⟩
  rcases he with he | ⟨g, hc, hg⟩
  · simp [flatMapFunc, hf, he]
  · simp [flatMapFunc, hf, hc, callFunc, hg]

/-- Witness for C8 at the concrete func `constFunc (.int 0)` and a
continuation that raises `userError "boom"`, executed on the empty state. -/
theorem continuation_error_propagates_witness :
    constFunc (.int 0) ∅ = .ok ∅ (.int 0) ∧
    flatMapFunc (constFunc (.int 0)) (fun _ => .error (.userError "boom")) ∅ =
      .raise (.userError "boom") :=
  ⟨rfl,
    (continuation_error_propagates (constFunc (.int 0))
      (fun _ => .error (.userError "boom")) ∅ ∅ (.int 0) (.userError "boom")
      rfl (Or.inl rfl)).2⟩

/-- C9: executing the same `StateMonad` value twice from the same initial
context returns the same `(state, value)` pair both times, and nothing is
cached: each run of `collect_even_numbers num` recomputes its result — and
re-applies its state-updating effect — from the context supplied to that
run. -/
theorem no_memoization_across_runs (v : PyVal) (s : PySet) (num : Int) :
    (runTwice v s).1 = (runTwice v s).2 ∧
    runTwice (collect_even_numbers num) s =
      (.ok (if num % 2 = 0 then s ∪ {num} else s) (.int num),
       .ok (if num % 2 = 0 then s ∪ {num} else s) (.int num)) :=
  ⟨rfl, rfl⟩

/-- C10: `collect_even_numbers(num).func(state)` returns
`(state ∪ {num}, num)` when `num` is even and `(state, num)` when `num` is
odd; the value is always exactly `num` and the returned state is a superset
of the input state (the input set is never mutated: a new set is built with
the union operator). -/
theorem collect_even_numbers_spec (num : Int) (s : PySet) :
    callFunc (collect_even_numbers num) s =
      .ok (if num % 2 = 0 then s ∪ {num} else s) (.int num) ∧
    s ⊆ (if num % 2 = 0 then s ∪ {num} else s) := by
  refine ⟨rfl, ?_⟩
  by_cases h : num % 2 = 0
  · simp [h]
  · simp [h]
